import Mathlib

/-!
Verification of the PDF-generation server (src/server.js).

The server is a single Express handler, `GET /generate-pdf`, that drives a
headless browser (puppeteer) to render a target URL into a PDF file and
streams the bytes back.  We give a shallow embedding: every interaction with
the outside world (browser launch, page navigation, export, filesystem,
environment variables) is an oracle recorded in an `Env` value, and the
handler becomes a total function `generatePdf : Env → HandlerResult` that
mirrors the JavaScript control flow (try body, catch block, finally block)
step by step.
-/

/-- A JavaScript `Error` value: the `message` property and the `stack`
property.  For an error constructed by `new Error(msg)` the stack string
begins with the message line; the call frames are abstracted away. -/
structure JsError where
  message : String
  stack : String
deriving DecidableEq

/-- The value `new Error(msg)` (stack frames abstracted, see `JsError`). -/
def errorNew (msg : String) : JsError :=
  ⟨msg, "Error: " ++ msg⟩

/-- Oracle for one request: the request data and the outcome of every
external call the handler makes, in program order.  A `.error` value means
the corresponding `await` rejected (threw). -/
structure Env where
  /-- Value of `req.query.url`: `none` when the parameter is absent, `some ""` when
  it is present but empty. -/
  url : Option String
  /-- The hex string produced by `crypto.randomBytes(16).toString('hex')`
  for this request (32 hex characters in the real system). -/
  randomName : String
  /-- Outcome of `puppeteer.launch(...)`. -/
  launch : Except JsError Unit
  /-- Outcome of `browser.newPage()`. -/
  newPage : Except JsError Unit
  /-- Outcome of `page.setViewport(config.viewport)`. -/
  setViewport : Except JsError Unit
  /-- Outcome of `page.goto(url, ...)`: the HTTP status of the navigation
  response on fulfilment, or the rejection (e.g. a navigation timeout). -/
  pageGoto : Except JsError Nat
  /-- Outcome of `page.waitForSelector('body', ...)`: `.error` when the
  selector was not observed within the timeout. -/
  waitForSelector : Except JsError Unit
  /-- Outcome of `page.pdf(...)`. -/
  pagePdf : Except JsError Unit
  /-- The bytes the engine wrote to the temporary file on a successful
  export; `fs.stat` reports their count and `fs.readFile` returns them. -/
  fileBytes : List Nat
  /-- Outcome of `fs.readFile(tempFilePath)` (the bytes themselves are
  `fileBytes`). -/
  readFile : Except JsError Unit
  /-- Outcome of `browser.close()` in the finally block. -/
  browserClose : Except JsError Unit
  /-- Value of `process.env.NODE_ENV`. -/
  nodeEnv : String

/-- The `allowedOrigins` list of src/server.js. -/
def allowedOrigins : List String :=
  ["http://localhost:3000", "*"]

/-- The `corsOptions.origin` decision function.  The argument is the
request's `Origin` header (`none` when absent).  The JavaScript guard
`if (!origin)` also fires when the header's value is the empty string,
since `""` is falsy.  `true` means `callback(null, true)` (allowed),
`false` means `callback(new Error('Not allowed by CORS'))`. -/
def corsOriginAllows (origin : Option String) : Bool :=
  match origin with
  | none => true
  | some o =>
    if o = "" then true
    else if allowedOrigins.contains o then true
    else false

/-- The temporary directory `path.join(__dirname, 'temp')`; the
`__dirname` part is abstracted away. -/
def tempDir : String := "temp"

/-- The function `getTempFilePath`: joins the temp directory with the random filename
stem plus the `.pdf` suffix. -/
def getTempFilePath (randomName : String) : String :=
  tempDir ++ "/" ++ randomName ++ ".pdf"

/-- A call to `setTimeout`-based file deletion: the path and the delay in
milliseconds that were scheduled. -/
structure ScheduledDeletion where
  filePath : String
  delayMs : Nat
deriving DecidableEq

/-- The default of the `delay` parameter of `deleteFileAfterDelay`. -/
def defaultDeleteDelayMs : Nat := 5000

/-- The call `deleteFileAfterDelay(filePath, delay)`: registers a deferred deletion
of `filePath` after `delay` milliseconds. -/
def deleteFileAfterDelay (filePath : String) (delayMs : Nat) : ScheduledDeletion :=
  ⟨filePath, delayMs⟩

/-- The body of the timer scheduled by `deleteFileAfterDelay`: it attempts
`fs.unlink(filePath)`; on success it logs a cleanup line, on failure it
logs an error line.  The failure is swallowed - the function returns the
log line in either case and never propagates the error. -/
def runScheduledDeletion (unlinkResult : Except JsError Unit) (filePath : String) : String :=
  match unlinkResult with
  | .ok _ => "[CLEANUP] Deleted temporary file: " ++ filePath
  | .error _ => "[ERROR] Failed to delete temporary file: " ++ filePath

/-- The `margin` object of `config.pdf`. -/
structure Margin where
  top : String
  right : String
  bottom : String
  left : String
deriving DecidableEq

/-- The `pdf` part of `config`. -/
structure PdfSettings where
  scale : Nat
  margin : Margin
deriving DecidableEq

/-- The `viewport` part of `config`.  `deviceScaleFactor` is the rational
4/5, written `0.8` in the source. -/
structure Viewport where
  width : Nat
  height : Nat
  deviceScaleFactor : Rat

/-- The `config` constant of src/server.js. -/
def config : Viewport × PdfSettings :=
  ⟨⟨1200, 1800, (4 : Rat) / 5⟩, ⟨1, ⟨"20px", "20px", "20px", "20px"⟩⟩⟩

/-- The argument object of the `page.pdf(...)` call, after the
`...config.pdf` object spread has been merged in. -/
structure PdfOptions where
  path : String
  format : String
  printBackground : Bool
  scale : Nat
  margin : Margin
  preferCSSPageSize : Bool
  timeoutMs : Nat
deriving DecidableEq

/-- The options `page.pdf` is invoked with for a given temporary file
path: `format: 'A4'`, `printBackground: true`, the spread of `config.pdf`
(scale and margins), `preferCSSPageSize: true`, `timeout: 60000`. -/
def pdfOptionsFor (tempFilePath : String) : PdfOptions :=
  ⟨tempFilePath, "A4", true, config.2.scale, config.2.margin, true, 60000⟩

/-- The argument pair of the `page.waitForSelector('body', ...)` call. -/
structure WaitForSelectorCall where
  selector : String
  timeoutMs : Nat
deriving DecidableEq

/-- Puppeteer `HTTPResponse.ok()`: true when the status is 0 or lies in
the range 200..299 (this is the external library's documented
behaviour). -/
def responseOk (status : Nat) : Bool :=
  status == 0 || (decide (200 ≤ status) && decide (status ≤ 299))

/-- What happened inside the `try` block of the handler: which resources
were acquired, which optional steps ran, and the final outcome (the byte
buffer handed to `res.send` on success, or the thrown error). -/
structure TryState where
  /-- The value of the `tempFilePath` variable at exit (`none` when the
  throw happened before it was assigned). -/
  tempFilePath : Option String
  /-- Whether `puppeteer.launch` completed, i.e. the `browser` variable
  was assigned. -/
  browserLaunched : Bool
  /-- The `page.waitForSelector` call, when that step was reached. -/
  readinessWait : Option WaitForSelectorCall
  /-- The settle delay (in ms) that was awaited after the selector was
  observed; `none` when the selector wait timed out (the delay line is
  skipped because the timeout threw past it). -/
  settleDelayMs : Option Nat
  /-- The `page.pdf` call, when that step was reached. -/
  exportCall : Option PdfOptions
  /-- Warning lines logged by the non-fatal readiness-wait catch. -/
  warnings : List String
  /-- Either `.ok buffer` - the bytes sent with the 200 response - or `.error e`, the
  error that reached the catch block. -/
  outcome : Except JsError (List Nat)

/-- The `try` block of the `/generate-pdf` handler, step by step:
validate `url` (the falsy check also rejects the empty string), allocate
the temporary path, launch the browser, open a page, set the viewport,
navigate, check `response.ok()`, best-effort readiness wait, export to
PDF, stat the file and reject a zero-byte result, read the file back. -/
def tryBody (env : Env) : TryState :=
  match env.url with
  | none => ⟨none, false, none, none, none, [], .error (errorNew "URL parameter is required")⟩
  | some url =>
    if url = "" then
      ⟨none, false, none, none, none, [], .error (errorNew "URL parameter is required")⟩
    else
      let tempFilePath := getTempFilePath env.randomName
      match env.launch with
      | .error e => ⟨some tempFilePath, false, none, none, none, [], .error e⟩
      | .ok _ =>
        match env.newPage with
        | .error e => ⟨some tempFilePath, true, none, none, none, [], .error e⟩
        | .ok _ =>
          match env.setViewport with
          | .error e => ⟨some tempFilePath, true, none, none, none, [], .error e⟩
          | .ok _ =>
            match env.pageGoto with
            | .error e => ⟨some tempFilePath, true, none, none, none, [], .error e⟩
            | .ok status =>
              if responseOk status then
                let wait : WaitForSelectorCall := ⟨"body", 10000⟩
                let settle : Option Nat :=
                  match env.waitForSelector with
                  | .ok _ => some 3000
                  | .error _ => none
                let warns : List String :=
                  match env.waitForSelector with
                  | .ok _ => []
                  | .error _ => ["[WARNING] Timeout waiting for content, proceeding anyway..."]
                let opts := pdfOptionsFor tempFilePath
                match env.pagePdf with
                | .error e => ⟨some tempFilePath, true, some wait, settle, some opts, warns, .error e⟩
                | .ok _ =>
                  if env.fileBytes.length = 0 then
                    ⟨some tempFilePath, true, some wait, settle, some opts, warns,
                      .error (errorNew "Generated PDF file is empty")⟩
                  else
                    match env.readFile with
                    | .error e => ⟨some tempFilePath, true, some wait, settle, some opts, warns, .error e⟩
                    | .ok _ => ⟨some tempFilePath, true, some wait, settle, some opts, warns,
                        .ok env.fileBytes⟩
              else
                ⟨some tempFilePath, true, none, none, none, [],
                  .error (errorNew ("Failed to load page: " ++ toString status))⟩

/-- The HTTP response delivered to the caller. -/
inductive Response where
  /-- 200 with the given Content-Type, Content-Disposition, Content-Length
  and body bytes. -/
  | success (contentType : String) (contentDisposition : String)
      (contentLength : Nat) (body : List Nat) : Response
  /-- Models `res.status(status).json` with an error object; `stack = none`
  models the `undefined` value, which `res.json` drops from the body. -/
  | failure (status : Nat) (error : String) (message : String)
      (stack : Option String) : Response
deriving DecidableEq

/-- Whether a response is the 200 PDF response. -/
def Response.isSuccess : Response → Bool
  | .success _ _ _ _ => true
  | .failure _ _ _ _ => false

/-- The stack member of the JSON error body (`none` for a success
response or when the member was dropped). -/
def Response.stackMember : Response → Option String
  | .success _ _ _ _ => none
  | .failure _ _ _ st => st

/-- The `finally` block: when a browser was launched, `browser.close()`
is called exactly once; a close failure is caught and only logged.
Returns the number of `close()` calls and the cleanup log lines. -/
def finallyBlock (browserLaunched : Bool) (closeResult : Except JsError Unit) :
    Nat × List String :=
  if browserLaunched then
    match closeResult with
    | .ok _ => (1, ["[CLEANUP] Closing browser...", "[CLEANUP] Browser closed"])
    | .error _ => (1, ["[CLEANUP] Closing browser...", "[CLEANUP ERROR] Failed to close browser:"])
  else (0, [])

/-- Everything externally observable about one run of the handler. -/
structure HandlerResult where
  response : Response
  /-- The `deleteFileAfterDelay` calls made, in order. -/
  scheduledDeletions : List ScheduledDeletion
  /-- How many times `browser.close()` was invoked. -/
  browserCloseCalls : Nat
  /-- Log lines of the finally block. -/
  cleanupLogs : List String

/-- The whole `GET /generate-pdf` handler.  On a normal exit of the try
body the headers are set from the buffer, the buffer is sent, and deletion
of the temporary file is scheduled with the default delay; in the catch
block a 500 JSON envelope is sent (`stack` only in development mode) and,
if a temporary path had been allocated, deletion is scheduled with delay
0.  The finally block closes the browser when one was launched. -/
def generatePdf (env : Env) : HandlerResult :=
  ⟨(match (tryBody env).outcome with
    | .ok body =>
        Response.success "application/pdf" "attachment; filename=generated.pdf" body.length body
    | .error e =>
        Response.failure 500 "Failed to generate PDF" e.message
          (if env.nodeEnv = "development" then some e.stack else none)),
   (match (tryBody env).outcome, (tryBody env).tempFilePath with
    | .ok _, some p => [deleteFileAfterDelay p defaultDeleteDelayMs]
    | .ok _, none => []
    | .error _, some p => [deleteFileAfterDelay p 0]
    | .error _, none => []),
   (finallyBlock (tryBody env).browserLaunched env.browserClose).1,
   (finallyBlock (tryBody env).browserLaunched env.browserClose).2⟩

/-- Replace only the `browserClose` oracle of an environment. -/
def setBrowserClose (env : Env) (c : Except JsError Unit) : Env :=
  ⟨env.url, env.randomName, env.launch, env.newPage, env.setViewport, env.pageGoto,
   env.waitForSelector, env.pagePdf, env.fileBytes, env.readFile, c, env.nodeEnv⟩

/-- A convenient fully successful request environment, used to build the
concrete instances in the witnesses below: a non-empty URL, every external
call succeeding, a 200 navigation status, and a four-byte PDF file. -/
def baseEnv : Env :=
  ⟨some "https://example.com", "0123456789abcdef0123456789abcdef",
   .ok (), .ok (), .ok (), .ok 200, .ok (), .ok (),
   [37, 80, 68, 70], .ok (), .ok (), "production"⟩

/-- A request identical to `baseEnv` except that the `url` query parameter
is absent. -/
def envMissingUrl : Env :=
  ⟨none, "0123456789abcdef0123456789abcdef", .ok (), .ok (), .ok (), .ok 200, .ok (), .ok (),
   [37, 80, 68, 70], .ok (), .ok (), "production"⟩

/-- C3: a request whose `url` parameter is absent or empty fails
immediately with status 500 and JSON body error "Failed to generate PDF",
message "URL parameter is required"; no browser is launched, no temporary
path is allocated, no deletion is scheduled, and no browser close
happens. -/
theorem c3_missing_url_fails_early (env : Env)
    (h : env.url = none ∨ env.url = some "") :
    (generatePdf env).response =
      Response.failure 500 "Failed to generate PDF" "URL parameter is required"
        (if env.nodeEnv = "development"
         then some (errorNew "URL parameter is required").stack else none) ∧
    (tryBody env).browserLaunched = false ∧
    (tryBody env).tempFilePath = none ∧
    (generatePdf env).scheduledDeletions = [] ∧
    (generatePdf env).browserCloseCalls = 0 := by
  rcases h with h | h <;>
    simp [generatePdf, tryBody, h, finallyBlock, errorNew]

/-- Witness for C3 at the concrete request `envMissingUrl`. -/
theorem c3_missing_url_fails_early_witness :
    (generatePdf envMissingUrl).response =
      Response.failure 500 "Failed to generate PDF" "URL parameter is required"
        (if envMissingUrl.nodeEnv = "development"
         then some (errorNew "URL parameter is required").stack else none) ∧
    (tryBody envMissingUrl).browserLaunched = false ∧
    (tryBody envMissingUrl).tempFilePath = none ∧
    (generatePdf envMissingUrl).scheduledDeletions = [] ∧
    (generatePdf envMissingUrl).browserCloseCalls = 0 :=
  c3_missing_url_fails_early envMissingUrl (Or.inl rfl)

/-- C9 (counterexample): the CORS decision accepts a request whose
`Origin` header is present with the empty string as value, because the
JavaScript guard `if (!origin)` treats `""` as falsy; the claim as stated
only allows an absent header or the two literal list entries. -/
theorem c9_counterexample :
    corsOriginAllows (some "") = true ∧
    ¬ ((some "" : Option String) = none ∨ (some "" : Option String) = some "http://localhost:3000" ∨
        (some "" : Option String) = some "*") := by
  constructor
  · rfl
  · intro h
    rcases h with h | h | h <;> simp_all

/-- C9 (amended): the CORS decision accepts a request exactly when the
`Origin` header is absent or empty, or its value is literally
"http://localhost:3000" or literally "*"; in particular the "*" entry
matches only the literal string "*" (no wildcard semantics), and every
other browser origin is rejected with the CORS error. -/
theorem c9_cors_origin_decision (o : Option String) :
    corsOriginAllows o = true ↔
      (o = none ∨ o = some "" ∨ o = some "http://localhost:3000" ∨ o = some "*") := by
  cases o with
  | none => simp [corsOriginAllows]
  | some s =>
    simp only [corsOriginAllows, allowedOrigins]
    by_cases h1 : s = "" <;> by_cases h2 : s = "http://localhost:3000" <;>
      by_cases h3 : s = "*" <;> simp_all [List.contains, List.elem, beq_iff_eq]
    rw [beq_eq_false_iff_ne.mpr h2, beq_eq_false_iff_ne.mpr h3]

/-- The try body never reads the `browserClose` oracle, so replacing it
leaves the try state unchanged. -/
theorem tryBody_setBrowserClose (env : Env) (c : Except JsError Unit) :
    tryBody (setBrowserClose env c) = tryBody env := by
  cases env
  rfl

/-- Once a browser was launched, the finally block calls `close()` exactly
once whatever the close outcome is. -/
theorem finallyBlock_launched_calls_once (c : Except JsError Unit) :
    (finallyBlock true c).1 = 1 := by
  cases c <;> rfl

/-- C1: whenever a browser was launched, the finally block closes it
exactly once, on every exit path; replacing the close outcome by any
other (in particular a failing one) neither changes the number of close
calls, nor the response, nor the scheduled deletions, and a failing close
is merely logged. -/
theorem c1_browser_teardown_once (env : Env) (c : Except JsError Unit)
    (h : (tryBody env).browserLaunched = true) :
    (generatePdf env).browserCloseCalls = 1 ∧
    (generatePdf (setBrowserClose env c)).browserCloseCalls = 1 ∧
    (generatePdf (setBrowserClose env c)).response = (generatePdf env).response ∧
    (generatePdf (setBrowserClose env c)).scheduledDeletions =
      (generatePdf env).scheduledDeletions ∧
    (finallyBlock true (Except.error (errorNew "close failed"))).2 =
      ["[CLEANUP] Closing browser...", "[CLEANUP ERROR] Failed to close browser:"] := by
  refine ⟨?_, ?_, ?_, ?_, rfl⟩
  · show (finallyBlock (tryBody env).browserLaunched env.browserClose).1 = 1
    rw [h]
    exact finallyBlock_launched_calls_once _
  · show (finallyBlock (tryBody (setBrowserClose env c)).browserLaunched c).1 = 1
    rw [tryBody_setBrowserClose, h]
    exact finallyBlock_launched_calls_once _
  · show ((generatePdf (setBrowserClose env c)).response = (generatePdf env).response)
    simp only [generatePdf]
    rw [tryBody_setBrowserClose]
    simp only [setBrowserClose]
  · show ((generatePdf (setBrowserClose env c)).scheduledDeletions =
      (generatePdf env).scheduledDeletions)
    simp only [generatePdf]
    rw [tryBody_setBrowserClose]

/-- Witness for C1 at the fully successful request `baseEnv`, with a
failing close outcome substituted in. -/
theorem c1_browser_teardown_once_witness :
    (generatePdf baseEnv).browserCloseCalls = 1 ∧
    (generatePdf (setBrowserClose baseEnv (Except.error (errorNew "boom")))).browserCloseCalls = 1 ∧
    (generatePdf (setBrowserClose baseEnv (Except.error (errorNew "boom")))).response =
      (generatePdf baseEnv).response ∧
    (generatePdf (setBrowserClose baseEnv (Except.error (errorNew "boom")))).scheduledDeletions =
      (generatePdf baseEnv).scheduledDeletions ∧
    (finallyBlock true (Except.error (errorNew "close failed"))).2 =
      ["[CLEANUP] Closing browser...", "[CLEANUP ERROR] Failed to close browser:"] :=
  c1_browser_teardown_once baseEnv (Except.error (errorNew "boom")) rfl

/-- C2 (counterexample): a request with no `url` parameter schedules no
deletion at all (no temporary path was ever allocated), so deletion is
not scheduled exactly once for every request. -/
theorem c2_counterexample :
    ¬ (generatePdf envMissingUrl).scheduledDeletions.length = 1 := by
  decide

/-- C2 (amended): for every request in which a Temporary Artifact path
was allocated, deletion is scheduled exactly once - with the default
5000 ms grace delay on the success path and with zero delay on every
failure path. -/
theorem c2_deletion_scheduled_once (env : Env) (p : String)
    (h : (tryBody env).tempFilePath = some p) :
    (generatePdf env).scheduledDeletions =
      [if (generatePdf env).response.isSuccess
       then deleteFileAfterDelay p defaultDeleteDelayMs
       else deleteFileAfterDelay p 0] := by
  cases hout : (tryBody env).outcome <;>
    simp [generatePdf, hout, h, Response.isSuccess]

/-- Witness for C2 (amended) at the concrete request `baseEnv`. -/
theorem c2_deletion_scheduled_once_witness :
    (generatePdf baseEnv).scheduledDeletions =
      [if (generatePdf baseEnv).response.isSuccess
       then deleteFileAfterDelay "temp/0123456789abcdef0123456789abcdef.pdf" defaultDeleteDelayMs
       else deleteFileAfterDelay "temp/0123456789abcdef0123456789abcdef.pdf" 0] :=
  c2_deletion_scheduled_once baseEnv "temp/0123456789abcdef0123456789abcdef.pdf" rfl

/-- A request identical to `envMissingUrl` except that NODE_ENV is
"test", a mode that is neither "production" nor "development". -/
def envTestMode : Env :=
  ⟨none, "0123456789abcdef0123456789abcdef", .ok (), .ok (), .ok (), .ok 200, .ok (), .ok (),
   [37, 80, 68, 70], .ok (), .ok (), "test"⟩

/-- C6 (counterexample): under NODE_ENV = "test" - a non-production
mode - the error response of a failing request carries no stack member,
so stack presence is not equivalent to running in a non-production
mode: it requires the mode to be exactly "development". -/
theorem c6_counterexample :
    (generatePdf envTestMode).response.isSuccess = false ∧
    (generatePdf envTestMode).response.stackMember = none ∧
    envTestMode.nodeEnv ≠ "production" := by
  decide

/-- C6 (amended): every failure of the handler, of every kind, yields the
same envelope - status 500, error "Failed to generate PDF", a message,
and a stack member that is present exactly when NODE_ENV is the literal
"development". -/
theorem c6_uniform_error_envelope (env : Env) :
    (∃ ct cd n b, (generatePdf env).response = Response.success ct cd n b) ∨
    (∃ m st, (generatePdf env).response = Response.failure 500 "Failed to generate PDF" m st ∧
      (st.isSome ↔ env.nodeEnv = "development")) := by
  cases hout : (tryBody env).outcome with
  | ok b =>
    exact Or.inl ⟨"application/pdf", "attachment; filename=generated.pdf", b.length, b,
      by simp [generatePdf, hout]⟩
  | error e =>
    refine Or.inr ⟨e.message,
      if env.nodeEnv = "development" then some e.stack else none,
      by simp [generatePdf, hout], ?_⟩
    by_cases hd : env.nodeEnv = "development" <;> simp [hd]

/-- Value of the try state for a request that passes validation, browser
launch, page creation, viewport setting and a navigation whose status
satisfies `response.ok()`: the temporary path is allocated, the browser
is launched, the readiness wait runs with selector "body" and a 10 s
timeout, the export step is reached with the fixed options, and the
remaining outcome depends only on the selector wait, the export, the
file size and the read-back. -/
theorem tryBody_reached_export (env : Env) (u : String) (s : Nat)
    (hu : env.url = some u) (hne : u ≠ "")
    (hl : env.launch = Except.ok ()) (hn : env.newPage = Except.ok ())
    (hv : env.setViewport = Except.ok ()) (hg : env.pageGoto = Except.ok s)
    (hok : responseOk s = true) :
    (tryBody env).tempFilePath = some (getTempFilePath env.randomName) ∧
    (tryBody env).browserLaunched = true ∧
    (tryBody env).readinessWait = some ⟨"body", 10000⟩ ∧
    (tryBody env).exportCall = some (pdfOptionsFor (getTempFilePath env.randomName)) ∧
    (tryBody env).settleDelayMs =
      (match env.waitForSelector with
       | .ok _ => some 3000
       | .error _ => none) ∧
    (tryBody env).warnings =
      (match env.waitForSelector with
       | .ok _ => []
       | .error _ => ["[WARNING] Timeout waiting for content, proceeding anyway..."]) ∧
    (tryBody env).outcome =
      (match env.pagePdf with
       | .error e => .error e
       | .ok _ =>
         if env.fileBytes.length = 0 then .error (errorNew "Generated PDF file is empty")
         else
           match env.readFile with
           | .error e => .error e
           | .ok _ => .ok env.fileBytes) := by
  cases hw : env.waitForSelector <;> cases hp : env.pagePdf <;>
    by_cases hz : env.fileBytes.length = 0 <;> cases hr : env.readFile <;>
    simp [tryBody, hu, hne, hl, hn, hv, hg, hok, hw, hp, hz, hr]

/-- A normal exit of the try body hands exactly the file's bytes to
`res.send`, and the zero-byte guard guarantees they are non-empty. -/
theorem tryBody_ok_bytes (env : Env) (b : List Nat)
    (hout : (tryBody env).outcome = Except.ok b) :
    b = env.fileBytes ∧ b ≠ [] := by
  unfold tryBody at hout
  repeat' split at hout
  all_goals simp_all [List.length_eq_zero]

/-- C4: a successful response carries a non-empty body whose length is
exactly the declared Content-Length, and when the export step reports
success but the artifact on disk is zero bytes the handler fails with
the "Generated PDF file is empty" error instead of returning a success. -/
theorem c4_success_nonempty_matching_length (env : Env) :
    (∀ ct cd n b, (generatePdf env).response = Response.success ct cd n b →
      b ≠ [] ∧ n = b.length) ∧
    (∀ u s, env.url = some u → u ≠ "" → env.launch = Except.ok () →
      env.newPage = Except.ok () → env.setViewport = Except.ok () →
      env.pageGoto = Except.ok s → responseOk s = true →
      env.pagePdf = Except.ok () → env.fileBytes.length = 0 →
      (generatePdf env).response =
        Response.failure 500 "Failed to generate PDF" "Generated PDF file is empty"
          (if env.nodeEnv = "development"
           then some (errorNew "Generated PDF file is empty").stack else none)) := by
  constructor
  · intro ct cd n b hresp
    cases hout : (tryBody env).outcome with
    | error e => simp [generatePdf, hout] at hresp
    | ok body =>
      simp only [generatePdf, hout] at hresp
      obtain ⟨h1, h2, h3, h4⟩ := Response.success.inj hresp
      subst h4
      obtain ⟨hbe, hbn⟩ := tryBody_ok_bytes env body hout
      exact ⟨hbn, h3.symm⟩
  · intro u s hu hne hl hn hv hg hok hp hz
    obtain ⟨-, -, -, -, -, -, hout⟩ :=
      tryBody_reached_export env u s hu hne hl hn hv hg hok
    rw [hp] at hout
    simp only [hz, if_pos] at hout
    simp [generatePdf, hout, errorNew]

/-- A request like `baseEnv` whose export step reports success but leaves
a zero-byte file. -/
def envEmptyFile : Env :=
  ⟨some "https://example.com", "0123456789abcdef0123456789abcdef",
   .ok (), .ok (), .ok (), .ok 200, .ok (), .ok (), [], .ok (), .ok (), "production"⟩

/-- Witness for C4: the successful request `baseEnv` (four-byte body,
declared length 4) and the zero-byte request `envEmptyFile`. -/
theorem c4_success_nonempty_matching_length_witness :
    ([37, 80, 68, 70] ≠ ([] : List Nat) ∧ 4 = [37, 80, 68, 70].length) ∧
    (generatePdf envEmptyFile).response =
      Response.failure 500 "Failed to generate PDF" "Generated PDF file is empty"
        (if envEmptyFile.nodeEnv = "development"
         then some (errorNew "Generated PDF file is empty").stack else none) :=
  ⟨(c4_success_nonempty_matching_length baseEnv).1 "application/pdf"
      "attachment; filename=generated.pdf" 4 [37, 80, 68, 70] rfl,
   (c4_success_nonempty_matching_length envEmptyFile).2 "https://example.com" 200 rfl
      (by decide) rfl rfl rfl rfl (by decide) rfl rfl⟩

/-- C5: when navigation fulfils with a genuine HTTP status outside the
success range, the handler fails with the 500 envelope whose message
carries the observed status, and no success response is delivered. -/
theorem c5_upstream_status_error (env : Env) (u : String) (s : Nat)
    (hu : env.url = some u) (hne : u ≠ "")
    (hl : env.launch = Except.ok ()) (hn : env.newPage = Except.ok ())
    (hv : env.setViewport = Except.ok ()) (hg : env.pageGoto = Except.ok s)
    (hs1 : 100 ≤ s) (hs2 : ¬ (200 ≤ s ∧ s ≤ 299)) :
    (generatePdf env).response =
      Response.failure 500 "Failed to generate PDF" ("Failed to load page: " ++ toString s)
        (if env.nodeEnv = "development"
         then some (errorNew ("Failed to load page: " ++ toString s)).stack else none) ∧
    (generatePdf env).response.isSuccess = false := by
  have hok : responseOk s = false := by
    simp only [responseOk, Bool.or_eq_false_iff, Bool.and_eq_false_iff,
      decide_eq_false_iff_not, beq_eq_false_iff_ne]
    omega
  constructor
  · simp [generatePdf, tryBody, hu, hne, hl, hn, hv, hg, hok, errorNew]
  · simp [generatePdf, tryBody, hu, hne, hl, hn, hv, hg, hok, Response.isSuccess]

/-- A request like `baseEnv` whose navigation fulfils with status 404. -/
def env404 : Env :=
  ⟨some "https://example.com", "0123456789abcdef0123456789abcdef",
   .ok (), .ok (), .ok (), .ok 404, .ok (), .ok (), [37, 80, 68, 70], .ok (), .ok (), "production"⟩

/-- Witness for C5 at the concrete request `env404`. -/
theorem c5_upstream_status_error_witness :
    (generatePdf env404).response =
      Response.failure 500 "Failed to generate PDF" ("Failed to load page: " ++ toString 404)
        (if env404.nodeEnv = "development"
         then some (errorNew ("Failed to load page: " ++ toString 404)).stack else none) ∧
    (generatePdf env404).response.isSuccess = false :=
  c5_upstream_status_error env404 "https://example.com" 404 rfl (by decide)
    rfl rfl rfl rfl (by decide) (by decide)

/-- C7: whenever the export step is reached, `page.pdf` is invoked on the
temporary path with the fixed options - format "A4", background graphics
printed, scale 1, 20px margins on all four sides, CSS page size
honoured, 60000 ms timeout - and an export failure turns into the 500
failure envelope carrying the export error's message. -/
theorem c7_export_fixed_options (env : Env) (u : String) (s : Nat)
    (hu : env.url = some u) (hne : u ≠ "")
    (hl : env.launch = Except.ok ()) (hn : env.newPage = Except.ok ())
    (hv : env.setViewport = Except.ok ()) (hg : env.pageGoto = Except.ok s)
    (hok : responseOk s = true) :
    (tryBody env).exportCall = some (pdfOptionsFor (getTempFilePath env.randomName)) ∧
    pdfOptionsFor (getTempFilePath env.randomName) =
      ⟨getTempFilePath env.randomName, "A4", true, 1,
        ⟨"20px", "20px", "20px", "20px"⟩, true, 60000⟩ ∧
    (∀ e, env.pagePdf = Except.error e →
      (generatePdf env).response =
        Response.failure 500 "Failed to generate PDF" e.message
          (if env.nodeEnv = "development" then some e.stack else none)) := by
  obtain ⟨-, -, -, hex, -, -, hout⟩ :=
    tryBody_reached_export env u s hu hne hl hn hv hg hok
  refine ⟨hex, rfl, ?_⟩
  intro e hp
  simp only [hp] at hout
  simp [generatePdf, hout]

/-- A request like `baseEnv` whose export step rejects. -/
def envExportFail : Env :=
  ⟨some "https://example.com", "0123456789abcdef0123456789abcdef",
   .ok (), .ok (), .ok (), .ok 200, .ok (), .error (errorNew "pdf boom"),
   [37, 80, 68, 70], .ok (), .ok (), "production"⟩

/-- Witness for C7 at the concrete request `envExportFail`. -/
theorem c7_export_fixed_options_witness :
    (tryBody envExportFail).exportCall =
      some (pdfOptionsFor (getTempFilePath envExportFail.randomName)) ∧
    pdfOptionsFor (getTempFilePath envExportFail.randomName) =
      ⟨getTempFilePath envExportFail.randomName, "A4", true, 1,
        ⟨"20px", "20px", "20px", "20px"⟩, true, 60000⟩ ∧
    (∀ e, envExportFail.pagePdf = Except.error e →
      (generatePdf envExportFail).response =
        Response.failure 500 "Failed to generate PDF" e.message
          (if envExportFail.nodeEnv = "development" then some e.stack else none)) :=
  c7_export_fixed_options envExportFail "https://example.com" 200 rfl (by decide)
    rfl rfl rfl rfl (by decide)

/-- C8: once a request reaches the readiness wait, the selector "body" is
awaited under a 10000 ms timeout; a timeout is non-fatal - the warning is
logged, no settle delay is awaited, and the export step is still
reached - while an observed selector is followed by the fixed 3000 ms
settle delay before the export step. -/
theorem c8_readiness_wait_nonfatal (env : Env) (u : String) (s : Nat)
    (hu : env.url = some u) (hne : u ≠ "")
    (hl : env.launch = Except.ok ()) (hn : env.newPage = Except.ok ())
    (hv : env.setViewport = Except.ok ()) (hg : env.pageGoto = Except.ok s)
    (hok : responseOk s = true) :
    (tryBody env).readinessWait = some ⟨"body", 10000⟩ ∧
    (∀ e, env.waitForSelector = Except.error e →
      (tryBody env).settleDelayMs = none ∧
      (tryBody env).warnings = ["[WARNING] Timeout waiting for content, proceeding anyway..."] ∧
      (tryBody env).exportCall = some (pdfOptionsFor (getTempFilePath env.randomName))) ∧
    (env.waitForSelector = Except.ok () →
      (tryBody env).settleDelayMs = some 3000 ∧
      (tryBody env).warnings = [] ∧
      (tryBody env).exportCall = some (pdfOptionsFor (getTempFilePath env.randomName))) := by
  obtain ⟨-, -, hrw, hex, hsd, hwn, -⟩ :=
    tryBody_reached_export env u s hu hne hl hn hv hg hok
  refine ⟨hrw, ?_, ?_⟩
  · intro e hw
    simp only [hw] at hsd hwn
    exact ⟨hsd, hwn, hex⟩
  · intro hw
    simp only [hw] at hsd hwn
    exact ⟨hsd, hwn, hex⟩

/-- Witness for C8 at the concrete request `baseEnv`. -/
theorem c8_readiness_wait_nonfatal_witness :
    (tryBody baseEnv).readinessWait = some ⟨"body", 10000⟩ ∧
    (∀ e, baseEnv.waitForSelector = Except.error e →
      (tryBody baseEnv).settleDelayMs = none ∧
      (tryBody baseEnv).warnings = ["[WARNING] Timeout waiting for content, proceeding anyway..."] ∧
      (tryBody baseEnv).exportCall = some (pdfOptionsFor (getTempFilePath baseEnv.randomName))) ∧
    (baseEnv.waitForSelector = Except.ok () →
      (tryBody baseEnv).settleDelayMs = some 3000 ∧
      (tryBody baseEnv).warnings = [] ∧
      (tryBody baseEnv).exportCall = some (pdfOptionsFor (getTempFilePath baseEnv.randomName))) :=
  c8_readiness_wait_nonfatal baseEnv "https://example.com" 200 rfl (by decide)
    rfl rfl rfl rfl (by decide)

/-- C10: when the handler fails after the temporary path was allocated
but before any file was written (browser launch failure), a zero-delay
deletion is still scheduled for that path; the later unlink failure is
merely logged by the timer body and never reaches the caller (the
response is fixed before the timer runs and carries only the launch
error); when the failure happens before path allocation, no deletion is
scheduled at all. -/
theorem c10_prewrite_failure_cleanup (env : Env) (u : String) (el e : JsError)
    (hu : env.url = some u) (hne : u ≠ "")
    (hl : env.launch = Except.error el) :
    (tryBody env).tempFilePath = some (getTempFilePath env.randomName) ∧
    (generatePdf env).scheduledDeletions =
      [deleteFileAfterDelay (getTempFilePath env.randomName) 0] ∧
    runScheduledDeletion (Except.error e) (getTempFilePath env.randomName) =
      "[ERROR] Failed to delete temporary file: " ++ getTempFilePath env.randomName ∧
    (generatePdf env).response =
      Response.failure 500 "Failed to generate PDF" el.message
        (if env.nodeEnv = "development" then some el.stack else none) ∧
    (∀ env2 : Env, env2.url = none → (generatePdf env2).scheduledDeletions = []) := by
  refine ⟨?_, ?_, rfl, ?_, ?_⟩
  · simp [tryBody, hu, hne, hl]
  · simp [generatePdf, tryBody, hu, hne, hl]
  · simp [generatePdf, tryBody, hu, hne, hl]
  · intro env2 h2
    simp [generatePdf, tryBody, h2]

/-- A request like `baseEnv` whose browser launch rejects. -/
def envLaunchFail : Env :=
  ⟨some "https://example.com", "0123456789abcdef0123456789abcdef",
   .error (errorNew "launch failed"), .ok (), .ok (), .ok 200, .ok (), .ok (),
   [37, 80, 68, 70], .ok (), .ok (), "production"⟩

/-- Witness for C10 at the concrete request `envLaunchFail`, with a
failing unlink outcome for the scheduled deletion. -/
theorem c10_prewrite_failure_cleanup_witness :
    (tryBody envLaunchFail).tempFilePath = some (getTempFilePath envLaunchFail.randomName) ∧
    (generatePdf envLaunchFail).scheduledDeletions =
      [deleteFileAfterDelay (getTempFilePath envLaunchFail.randomName) 0] ∧
    runScheduledDeletion (Except.error (errorNew "ENOENT: no such file or directory"))
        (getTempFilePath envLaunchFail.randomName) =
      "[ERROR] Failed to delete temporary file: " ++ getTempFilePath envLaunchFail.randomName ∧
    (generatePdf envLaunchFail).response =
      Response.failure 500 "Failed to generate PDF" (errorNew "launch failed").message
        (if envLaunchFail.nodeEnv = "development"
         then some (errorNew "launch failed").stack else none) ∧
    (∀ env2 : Env, env2.url = none → (generatePdf env2).scheduledDeletions = []) :=
  c10_prewrite_failure_cleanup envLaunchFail "https://example.com"
    (errorNew "launch failed") (errorNew "ENOENT: no such file or directory")
    rfl (by decide) rfl
